import Mathlib

/-!
Verification of the CD_CARD-RTC firmware logger (the RTC variant, i.e. the
source file using the Ds1302 clock).  The file gives a shallow embedding of
the sketch's global state and of its timer callbacks — `checkSDCard`,
`bufferData`, `writeDataFromBuffer`, `createBackup`, `cleanupOldBackups`,
`stopWritingAndSaveAsync` and the one-shot resume lambda — and proves
theorems about the logging, flush, suspend/resume and backup-retention
behaviour.

Modelling conventions:
* Arduino `String` operations (`startsWith`, `substring`, `lastIndexOf`,
  `toInt`) are embedded with their Arduino/C semantics over `String.data`.
* The external SD library is modelled by an association list of
  (name, content) pairs in listing order, plus explicit environment
  booleans for the outcomes of `SD.begin` and file opens.
* A directory handle (`File root = SD.open("/")`) is a cursor into the
  listing: `openNextFile` advances the cursor and, once the listing is
  exhausted, keeps returning "no file" — the ESP32 FS layer wraps
  `readdir` and the sketch never calls `rewindDirectory`.  This matters in
  `cleanupOldBackups`, whose eviction scan reuses the cursor already
  exhausted by its counting loop.
* `digitalWrite(LED_PIN, HIGH)` is `led := true` (fault indicator
  asserted), `LOW` is `led := false`.
* `Serial` output through `logMessage` is a trace of (level, message)
  pairs; `removeTrace` is ghost instrumentation recording every name
  passed to `SD.remove`, and `flushCalls` counts calls to
  `writeDataFromBuffer`.
-/

namespace CDRTC

/-- Configuration constants of the sketch (RTC variant). -/
def LOG_LEVEL : Nat := 3

def MAX_BACKUP_FILES : Nat := 10

def bufferSizeLimit : Nat := 10

def backupFileName : String := "/backup"

def dataFileName : String := "/example.txt"

/-- Arduino `String::startsWith`: the second argument is the candidate
start of the first. -/
def startsWithCpp (s start : String) : Bool :=
  List.isPrefixOf start.data s.data

/-- Arduino `String::lastIndexOf(char)`: index of the last occurrence,
`-1` when absent. -/
def lastIndexOfAux (cs : List Char) (c : Char) (i : Nat) (best : Int) : Int :=
  match cs with
  | [] => best
  | x :: rest => lastIndexOfAux rest c (i + 1) (if x = c then Int.ofNat i else best)

def lastIndexOfCpp (s : String) (c : Char) : Int :=
  lastIndexOfAux s.data c 0 (-1)

/-- C conversion of a signed value to `unsigned int` / `unsigned long`
(both 32-bit on the ESP32): reduction modulo 2^32. -/
def asU32 (i : Int) : Nat :=
  (i % (2 ^ 32 : Int)).toNat

/-- Arduino `String::substring(left, right)` (both arguments unsigned):
swaps the bounds when out of order, returns the characters in
`[left, right)` clamped to the length. -/
def substringCpp (s : String) (left right : Nat) : String :=
  let l := if left > right then right else left
  let r := if left > right then left else right
  let len := s.data.length
  if l ≥ len then "" else
  let r2 := if r > len then len else r
  ⟨(s.data.drop l).take (r2 - l)⟩

/-- Digit run consumed by `atol`: accumulates leading decimal digits,
stops at the first non-digit. -/
def atolDigits : List Char → Nat → Nat
  | [], acc => acc
  | c :: rest, acc =>
    if c.isDigit then atolDigits rest (acc * 10 + (c.toNat - 48)) else acc

/-- Arduino `String::toInt` (a thin wrapper over `atol`): skips leading
whitespace, accepts an optional sign, reads leading digits, yields 0 when
there are none. -/
def toIntCpp (s : String) : Int :=
  let cs := s.data.dropWhile fun c => c = ' ' ∨ c = '\t' ∨ c = '\n' ∨ c = '\r'
  match cs with
  | '-' :: rest => - Int.ofNat (atolDigits rest 0)
  | '+' :: rest => Int.ofNat (atolDigits rest 0)
  | _ => Int.ofNat (atolDigits cs 0)

/-- Zero padding used to embed `snprintf`'s `%02d` / `%04d` fields. -/
def padLeft0 (width : Nat) (n : Nat) : String :=
  let s := toString n
  ⟨List.replicate (width - s.data.length) '0' ++ s.data⟩

/-- Calendar value delivered by the Ds1302 driver; `year` is years since
2000, as stored by the chip. -/
structure DateTime where
  year : Nat
  month : Nat
  day : Nat
  hour : Nat
  minute : Nat
  second : Nat
deriving DecidableEq

/-- Embedding of `getTimestamp()`: adds the 2-second compensation, carries
seconds into minutes and minutes into hours, wraps the hour at 24 (the day
is left as read), and renders `"%04d-%02d-%02d %02d:%02d:%02d"` — 19
characters, exactly filling the 20-byte buffer. -/
def getTimestamp (now : DateTime) : String :=
  let hour := now.hour
  let minute := now.minute
  let second := now.second + 2
  let second2 := if second ≥ 60 then second - 60 else second
  let minute2 := if second ≥ 60 then minute + 1 else minute
  let minute3 := if minute2 ≥ 60 then minute2 - 60 else minute2
  let hour2 := if minute2 ≥ 60 then hour + 1 else hour
  let hour3 := if hour2 ≥ 24 then hour2 - 24 else hour2
  padLeft0 4 (now.year + 2000) ++ "-" ++ padLeft0 2 now.month ++ "-" ++
    padLeft0 2 now.day ++ " " ++ padLeft0 2 hour3 ++ ":" ++
    padLeft0 2 minute3 ++ ":" ++ padLeft0 2 second2

/-- The flat SD namespace: (name, content) pairs in listing order. -/
structure FileSys where
  files : List (String × String)
deriving DecidableEq

def fsNames (fs : FileSys) : List String :=
  fs.files.map Prod.fst

def fsLookup (fs : FileSys) (name : String) : Option String :=
  match fs.files.find? (fun e => e.1 == name) with
  | some e => some e.2
  | none => none

/-- `SD.open(name, FILE_APPEND)` followed by `print`: appends to the file,
creating it when absent. -/
def fsAppend (fs : FileSys) (name content : String) : FileSys :=
  if (fsNames fs).contains name then
    ⟨fs.files.map fun e => if e.1 = name then (e.1, e.2 ++ content) else e⟩
  else
    ⟨fs.files ++ [(name, content)]⟩

/-- `SD.open(name, FILE_WRITE)` followed by a full copy: truncates or
creates the file with the given content. -/
def fsWrite (fs : FileSys) (name content : String) : FileSys :=
  if (fsNames fs).contains name then
    ⟨fs.files.map fun e => if e.1 = name then (e.1, content) else e⟩
  else
    ⟨fs.files ++ [(name, content)]⟩

/-- `SD.remove(name)`: `some` of the shrunk store on success, `none` when
no such file exists. -/
def fsRemove (fs : FileSys) (name : String) : Option FileSys :=
  if (fsNames fs).contains name then
    some ⟨fs.files.filter fun e => ¬ (e.1 = name)⟩
  else
    none

/-- Process state: the sketch's globals plus the modelled indicator, timer
slot, file store and observation traces. -/
structure St where
  sdAvailable : Bool
  lastNumber : Int
  writeEnabled : Bool
  dataBuffer : String
  led : Bool
  resumeArmed : Option Nat
  fs : FileSys
  logs : List (Nat × String)
  removeTrace : List String
  flushCalls : Nat
deriving DecidableEq

/-- Outcomes of `SD.begin` and of opening the primary log for append,
supplied by the environment at each call. -/
structure Env where
  sdBeginOk : Bool
  openAppendOk : Bool
deriving DecidableEq

def envOk : Env := ⟨true, true⟩

def envNoSD : Env := ⟨false, true⟩

def envNoOpen : Env := ⟨true, false⟩

inductive WriteError where
  | storageUnavailable
  | openFailed
deriving DecidableEq

/-- Embedding of `logMessage`. -/
def logMessage (level : Nat) (message : String) (s : St) : St :=
  if level ≤ LOG_LEVEL then {s with logs := s.logs ++ [(level, message)]} else s

/-- Embedding of `checkSDCard()` (RTC variant): saves the previous flag,
sets the flag to the probe outcome, drives the LED, and logs only on a
state-change edge. -/
def checkSDCard (sdBeginOk : Bool) (s : St) : St :=
  let wasSdAvailable := s.sdAvailable
  let s := {s with sdAvailable := sdBeginOk}
  if s.sdAvailable then
    let s := {s with led := false}
    if ¬ wasSdAvailable then logMessage 3 "SD card found." s else s
  else
    let s := {s with led := true}
    if wasSdAvailable then logMessage 1 "SD card not found!" s else s

/-- Embedding of `writeDataFromBuffer()` (RTC variant).  The function
re-probes the card with `SD.begin` before anything else; on a failed probe
it downgrades the flag, asserts the LED, logs an error and returns — the
buffer is untouched.  On a successful probe it sets the flag to available
and clears the LED, then opens the primary log for append; an open failure
again leaves the buffer untouched.  Otherwise it appends the whole buffer,
logs the written content and clears the buffer.  The `Except` result names
the branch taken, mirroring the spec's error taxonomy for this void C++
function; `flushCalls` is ghost instrumentation counting the calls. -/
def writeDataFromBuffer (env : Env) (s0 : St) : St × Except WriteError Unit :=
  let s := {s0 with flushCalls := s0.flushCalls + 1}
  if ¬ env.sdBeginOk then
    let s := {s with sdAvailable := false, led := true}
    (logMessage 1 "SD card is not available for writing." s,
     Except.error WriteError.storageUnavailable)
  else
    let s := {s with sdAvailable := true, led := false}
    if ¬ env.openAppendOk then
      (logMessage 1 "Error opening file for writing." s,
       Except.error WriteError.openFailed)
    else
      let s := {s with fs := fsAppend s.fs dataFileName s.dataBuffer}
      let s := logMessage 3 ("Data written: " ++ s.dataBuffer) s
      ({s with dataBuffer := ""}, Except.ok ())

/-- The record-building half of `bufferData()`: increments `lastNumber`
and appends `<timestamp>, <lastNumber>\n` to the buffer. -/
def appendPhase (now : DateTime) (s : St) : St :=
  let s := {s with lastNumber := s.lastNumber + 1}
  {s with dataBuffer :=
    s.dataBuffer ++ getTimestamp now ++ ", " ++ toString s.lastNumber ++ "\n"}

/-- Embedding of `bufferData()`: a no-op unless the write gate is enabled
and the card is flagged available; otherwise appends one record and, when
the buffer length has reached `bufferSizeLimit`, flushes synchronously. -/
def bufferData (now : DateTime) (env : Env) (s : St) : St :=
  if ¬ s.writeEnabled ∨ ¬ s.sdAvailable then s
  else
    let s := appendPhase now s
    if s.dataBuffer.length ≥ bufferSizeLimit then (writeDataFromBuffer env s).1
    else s

/-- Backup destination name built by `createBackup()`:
`backupFileName + "_" + getTimestamp() + ".txt"`. -/
def backupPathFor (now : DateTime) : String :=
  backupFileName ++ "_" ++ getTimestamp now ++ ".txt"

/-- Parse applied by the eviction scan of `cleanupOldBackups()` to a
backup file name: `substring(backupFileName.length() + 1, lastIndexOf('.'))`
followed by `toInt`, the result converted to `unsigned long`. -/
def fileTimeOf (fileName : String) : Nat :=
  asU32 (toIntCpp (substringCpp fileName (backupFileName.length + 1)
    (asU32 (lastIndexOfCpp fileName '.'))))

/-- Counting loop of `cleanupOldBackups()` over the names drawn from the
directory cursor: counts those starting with the backup name. -/
def countBackupFiles : List String → Nat
  | [] => 0
  | n :: rest =>
    (if startsWithCpp n backupFileName then 1 else 0) + countBackupFiles rest

/-- Inner selection scan of the eviction loop, over the names remaining at
the directory cursor, threading `oldestFileTime` (initialised by the
caller to `millis()`) and `oldestFileName` (initialised to the empty
string): keeps the strictly smallest parsed time, first occurrence
winning ties. -/
def scanOldest : List String → Nat → String → Nat × String
  | [], oldestFileTime, oldestFileName => (oldestFileTime, oldestFileName)
  | n :: rest, oldestFileTime, oldestFileName =>
    if startsWithCpp n backupFileName then
      let fileTime := fileTimeOf n
      if fileTime < oldestFileTime then scanOldest rest fileTime n
      else scanOldest rest oldestFileTime oldestFileName
    else scanOldest rest oldestFileTime oldestFileName

/-- Outer `while (fileCount > MAX_BACKUP_FILES)` loop of
`cleanupOldBackups()`.  `pos` is the directory cursor of the `root`
handle, which the counting loop has already driven to the end of the
listing; each inner scan starts from it (`openNextFile` never rewinds)
and leaves it at the end of the current listing.  `millis` is the tick
value read at the top of each iteration, modelled as constant across the
pass.  On a successful removal the count is decremented and the loop
continues; on a failed removal an error is logged and the pass aborts. -/
def evictLoop (maxCount millis : Nat) : Nat → Nat → St → St
  | 0, _, s => s
  | fileCount + 1, pos, s =>
    if fileCount + 1 ≤ maxCount then s
    else
      let names := fsNames s.fs
      let chosen := scanOldest (names.drop pos) millis ""
      let oldestFileName := chosen.2
      let s1 : St := {s with removeTrace := s.removeTrace ++ [oldestFileName]}
      match fsRemove s1.fs oldestFileName with
      | some fs2 =>
        evictLoop maxCount millis fileCount names.length
          (logMessage 3 ("Deleted old backup: " ++ oldestFileName)
            {s1 with fs := fs2})
      | none => logMessage 1 ("Failed to delete old backup: " ++ oldestFileName) s1

/-- Embedding of `cleanupOldBackups()`: counts the files starting with the
backup name (consuming the directory cursor), then runs the eviction loop
with the cursor at the end of the listing.  `maxCount` generalises the
`MAX_BACKUP_FILES` constant (10 in the RTC variant, 5 in the other). -/
def cleanupOldBackups (maxCount millis : Nat) (s : St) : St :=
  let names := fsNames s.fs
  let fileCount := countBackupFiles names
  evictLoop maxCount millis fileCount names.length s

/-- Embedding of `createBackup()`: a no-op when the card is flagged
unavailable; opens the primary log for reading (fails when absent) and the
timestamped destination for writing (outcome `openWriteOk`), copies the
log byte-for-byte, logs, and invokes the retention pass. -/
def createBackup (now : DateTime) (openWriteOk : Bool) (millis : Nat) (s : St) : St :=
  if ¬ s.sdAvailable then s
  else
    let backupFilePath := backupPathFor now
    match fsLookup s.fs dataFileName with
    | none => logMessage 1 "Error opening data file for backup." s
    | some content =>
      if ¬ openWriteOk then logMessage 1 "Error creating backup file." s
      else
        let s := {s with fs := fsWrite s.fs backupFilePath content}
        let s := logMessage 3 ("Backup created: " ++ backupFilePath) s
        cleanupOldBackups MAX_BACKUP_FILES millis s

/-- First two statements of `stopWritingAndSaveAsync()`: disable the write
gate and drive the LED high (the fault indicator doubling as the
do-not-disturb signal). -/
def suspendEnterPhase (s : St) : St :=
  {s with writeEnabled := false, led := true}

/-- Embedding of `stopWritingAndSaveAsync()`: disables the gate and
asserts the indicator, forces a flush when the buffer is non-empty, then
arms the global one-shot `resumeWritingTicker` for 2 time units —
`Ticker::once` re-arms the single slot rather than stacking a second
timer. -/
def stopWritingAndSaveAsync (env : Env) (s : St) : St :=
  let s1 := suspendEnterPhase s
  let s2 := if s1.dataBuffer.length > 0 then (writeDataFromBuffer env s1).1 else s1
  {s2 with resumeArmed := some 2}

/-- Body of the resume lambda passed to `resumeWritingTicker.once`: LED
low, write gate re-enabled. -/
def resumeCallback (s : St) : St :=
  {s with led := false, writeEnabled := true}

/-- One time unit of the timer model: counts the armed one-shot down and
fires the resume lambda when it expires, clearing the slot. -/
def advanceOne (s : St) : St :=
  match s.resumeArmed with
  | none => s
  | some n =>
    if n ≤ 1 then {resumeCallback s with resumeArmed := none}
    else {s with resumeArmed := some (n - 1)}

/-- Callbacks that can run between a suspend and its scheduled resume
(everything except another suspend and the timer expiry itself). -/
inductive OtherEv where
  | probe (sdBeginOk : Bool)
  | tick (now : DateTime) (env : Env)
  | flushEv (env : Env)
  | backup (now : DateTime) (openWriteOk : Bool) (millis : Nat)

def otherStep : OtherEv → St → St
  | OtherEv.probe ok, s => checkSDCard ok s
  | OtherEv.tick now env, s => bufferData now env s
  | OtherEv.flushEv env, s => (writeDataFromBuffer env s).1
  | OtherEv.backup now ok ms, s => createBackup now ok ms s

def runOther : List OtherEv → St → St
  | [], s => s
  | e :: es, s => runOther es (otherStep e s)

/-- Iterated availability probes (for the transition-logging claims). -/
def runProbes : List Bool → St → St
  | [], s => s
  | p :: ps, s => runProbes ps (checkSDCard p s)

/-- Modelled from the spec (refinement side for the transition-logging
claim): the expected log events for a probe sequence, one informational
event exactly on each unavailable-to-available edge and one error event
exactly on each available-to-unavailable edge, nothing otherwise. -/
def specEdgeEvents : Bool → List Bool → List (Nat × String)
  | _, [] => []
  | prev, p :: ps =>
    (if p ∧ ¬ prev then [(3, "SD card found.")]
     else if ¬ p ∧ prev then [(1, "SD card not found!")]
     else []) ++ specEdgeEvents p ps

/-- Iterated buffer ticks with a fixed clock reading and environment. -/
def runTicks (now : DateTime) (env : Env) : Nat → St → St
  | 0, s => s
  | n + 1, s => runTicks now env n (bufferData now env s)

/-- Iterated flush attempts, one environment per attempt. -/
def runFlushes : List Env → St → St
  | [], s => s
  | e :: es, s => runFlushes es (writeDataFromBuffer e s).1

/-- State at the end of `setup()`: the globals' initialisers, an empty
primary log on the card, nothing logged yet. -/
def initialState : St where
  sdAvailable := false
  lastNumber := 0
  writeEnabled := true
  dataBuffer := ""
  led := false
  resumeArmed := none
  fs := ⟨[(dataFileName, "")]⟩
  logs := []
  removeTrace := []
  flushCalls := 0

/-! ### Helper lemmas -/

theorem logMessage_eq (level : Nat) (message : String) (s : St) :
    logMessage level message s =
      {s with logs := s.logs ++ (if level ≤ LOG_LEVEL then [(level, message)] else [])} := by
  unfold logMessage
  split
  · rfl
  · simp

theorem checkSDCard_sdAvailable (ok : Bool) (s : St) :
    (checkSDCard ok s).sdAvailable = ok := by
  cases ok <;> cases hs : s.sdAvailable <;>
    simp [checkSDCard, logMessage_eq, hs]

theorem checkSDCard_logs (ok : Bool) (s : St) :
    (checkSDCard ok s).logs = s.logs ++
      (if ok ∧ ¬ s.sdAvailable then [(3, "SD card found.")]
       else if ¬ ok ∧ s.sdAvailable then [(1, "SD card not found!")]
       else []) := by
  cases ok <;> cases hs : s.sdAvailable <;>
    simp [checkSDCard, logMessage_eq, hs, LOG_LEVEL]

theorem checkSDCard_writeEnabled (ok : Bool) (s : St) :
    (checkSDCard ok s).writeEnabled = s.writeEnabled := by
  cases ok <;> cases hs : s.sdAvailable <;>
    simp [checkSDCard, logMessage_eq, hs]

theorem checkSDCard_resumeArmed (ok : Bool) (s : St) :
    (checkSDCard ok s).resumeArmed = s.resumeArmed := by
  cases ok <;> cases hs : s.sdAvailable <;>
    simp [checkSDCard, logMessage_eq, hs]

theorem flush_writeEnabled (env : Env) (s : St) :
    ((writeDataFromBuffer env s).1).writeEnabled = s.writeEnabled := by
  rcases env with ⟨sdOk, openOk⟩
  cases sdOk <;> cases openOk <;>
    simp [writeDataFromBuffer, logMessage_eq]

theorem flush_resumeArmed (env : Env) (s : St) :
    ((writeDataFromBuffer env s).1).resumeArmed = s.resumeArmed := by
  rcases env with ⟨sdOk, openOk⟩
  cases sdOk <;> cases openOk <;>
    simp [writeDataFromBuffer, logMessage_eq]

theorem flush_sdAvailable (env : Env) (s : St) :
    ((writeDataFromBuffer env s).1).sdAvailable = env.sdBeginOk := by
  rcases env with ⟨sdOk, openOk⟩
  cases sdOk <;> cases openOk <;>
    simp [writeDataFromBuffer, logMessage_eq]

theorem flush_fail_preserves (env : Env) (s : St)
    (h : env.sdBeginOk = false ∨ env.openAppendOk = false) :
    ((writeDataFromBuffer env s).1).dataBuffer = s.dataBuffer ∧
      ((writeDataFromBuffer env s).1).fs = s.fs := by
  rcases env with ⟨sdOk, openOk⟩
  cases sdOk <;> cases openOk <;>
    simp_all [writeDataFromBuffer, logMessage_eq]

theorem evictLoop_fields (maxCount millis : Nat) :
    ∀ fileCount pos (s : St),
      (evictLoop maxCount millis fileCount pos s).sdAvailable = s.sdAvailable ∧
      (evictLoop maxCount millis fileCount pos s).writeEnabled = s.writeEnabled ∧
      (evictLoop maxCount millis fileCount pos s).resumeArmed = s.resumeArmed ∧
      (evictLoop maxCount millis fileCount pos s).dataBuffer = s.dataBuffer ∧
      (evictLoop maxCount millis fileCount pos s).led = s.led ∧
      (evictLoop maxCount millis fileCount pos s).lastNumber = s.lastNumber ∧
      (evictLoop maxCount millis fileCount pos s).flushCalls = s.flushCalls := by
  intro fileCount
  induction fileCount with
  | zero => intro pos s; simp [evictLoop]
  | succ n ih =>
    intro pos s
    rw [evictLoop]
    split
    · simp
    · dsimp only
      split
      · exact ih _ _
      · simp [logMessage_eq]

theorem cleanup_fields (maxCount millis : Nat) (s : St) :
    (cleanupOldBackups maxCount millis s).sdAvailable = s.sdAvailable ∧
      (cleanupOldBackups maxCount millis s).writeEnabled = s.writeEnabled ∧
      (cleanupOldBackups maxCount millis s).resumeArmed = s.resumeArmed ∧
      (cleanupOldBackups maxCount millis s).dataBuffer = s.dataBuffer ∧
      (cleanupOldBackups maxCount millis s).led = s.led ∧
      (cleanupOldBackups maxCount millis s).lastNumber = s.lastNumber ∧
      (cleanupOldBackups maxCount millis s).flushCalls = s.flushCalls :=
  evictLoop_fields maxCount millis _ _ s

theorem createBackup_sdAvailable (now : DateTime) (openWriteOk : Bool)
    (millis : Nat) (s : St) :
    (createBackup now openWriteOk millis s).sdAvailable = s.sdAvailable := by
  unfold createBackup
  split
  · rfl
  · split
    · simp [logMessage_eq]
    · split
      · simp [logMessage_eq]
      · rw [(cleanup_fields _ _ _).1]
        simp [logMessage_eq]

theorem createBackup_writeEnabled (now : DateTime) (openWriteOk : Bool)
    (millis : Nat) (s : St) :
    (createBackup now openWriteOk millis s).writeEnabled = s.writeEnabled := by
  unfold createBackup
  split
  · rfl
  · split
    · simp [logMessage_eq]
    · split
      · simp [logMessage_eq]
      · rw [(cleanup_fields _ _ _).2.1]
        simp [logMessage_eq]

theorem createBackup_resumeArmed (now : DateTime) (openWriteOk : Bool)
    (millis : Nat) (s : St) :
    (createBackup now openWriteOk millis s).resumeArmed = s.resumeArmed := by
  unfold createBackup
  split
  · rfl
  · split
    · simp [logMessage_eq]
    · split
      · simp [logMessage_eq]
      · rw [(cleanup_fields _ _ _).2.2.1]
        simp [logMessage_eq]

theorem appendPhase_writeEnabled (now : DateTime) (s : St) :
    (appendPhase now s).writeEnabled = s.writeEnabled := rfl

theorem bufferData_writeEnabled (now : DateTime) (env : Env) (s : St) :
    (bufferData now env s).writeEnabled = s.writeEnabled := by
  unfold bufferData
  split
  · rfl
  · dsimp only
    split
    · rw [flush_writeEnabled]; rfl
    · rfl

theorem bufferData_resumeArmed (now : DateTime) (env : Env) (s : St) :
    (bufferData now env s).resumeArmed = s.resumeArmed := by
  unfold bufferData
  split
  · rfl
  · dsimp only
    split
    · rw [flush_resumeArmed]; rfl
    · rfl

theorem otherStep_writeEnabled (ev : OtherEv) (s : St) :
    (otherStep ev s).writeEnabled = s.writeEnabled := by
  cases ev with
  | probe ok => exact checkSDCard_writeEnabled ok s
  | tick now env => exact bufferData_writeEnabled now env s
  | flushEv env => exact flush_writeEnabled env s
  | backup now ok ms => exact createBackup_writeEnabled now ok ms s

theorem otherStep_resumeArmed (ev : OtherEv) (s : St) :
    (otherStep ev s).resumeArmed = s.resumeArmed := by
  cases ev with
  | probe ok => exact checkSDCard_resumeArmed ok s
  | tick now env => exact bufferData_resumeArmed now env s
  | flushEv env => exact flush_resumeArmed env s
  | backup now ok ms => exact createBackup_resumeArmed now ok ms s

theorem runOther_writeEnabled (evs : List OtherEv) :
    ∀ s : St, (runOther evs s).writeEnabled = s.writeEnabled := by
  induction evs with
  | nil => intro s; rfl
  | cons e es ih =>
    intro s
    rw [runOther, ih, otherStep_writeEnabled]

theorem runOther_resumeArmed (evs : List OtherEv) :
    ∀ s : St, (runOther evs s).resumeArmed = s.resumeArmed := by
  induction evs with
  | nil => intro s; rfl
  | cons e es ih =>
    intro s
    rw [runOther, ih, otherStep_resumeArmed]

theorem find?_filter_ne (nm name : String) (h : nm ≠ name) :
    ∀ l : List (String × String),
      (l.filter fun e => ¬ (e.1 = name)).find? (fun e => e.1 == nm) =
        l.find? (fun e => e.1 == nm) := by
  intro l
  induction l with
  | nil => rfl
  | cons e rest ih =>
    rw [List.filter_cons]
    by_cases he : e.1 = name
    · have hnm : (e.1 == nm) = false := by
        simp only [beq_eq_false_iff_ne, ne_eq]
        rw [he]
        exact fun hc => h hc.symm
      rw [if_neg (by simp [he]), ih]
      simp only [List.find?, hnm]
    · by_cases hx : e.1 = nm
      · have hnm : (e.1 == nm) = true := by
          simp only [beq_iff_eq]; exact hx
        rw [if_pos (by simp [he])]
        simp only [List.find?, hnm]
      · have hnm : (e.1 == nm) = false := by
          simp only [beq_eq_false_iff_ne, ne_eq]; exact hx
        rw [if_pos (by simp [he])]
        simp only [List.find?, hnm, ih]

theorem fsLookup_remove_ne (fs : FileSys) (name nm : String) (h : nm ≠ name) :
    ∀ fs2, fsRemove fs name = some fs2 → fsLookup fs2 nm = fsLookup fs nm := by
  intro fs2 h2
  unfold fsRemove at h2
  split at h2
  · cases h2
    unfold fsLookup
    rw [find?_filter_ne nm name h]
  · cases h2

theorem fsRemove_length_le (fs : FileSys) (name : String) :
    ∀ fs2, fsRemove fs name = some fs2 →
      (fsNames fs2).length ≤ (fsNames fs).length := by
  intro fs2 h2
  unfold fsRemove at h2
  split at h2
  · cases h2
    simp only [fsNames, List.length_map]
    exact List.length_filter_le _ _
  · cases h2

/-- Core fact behind the retention claims: once the directory cursor sits
at or past the end of the listing, every eviction iteration selects the
empty default name — so the trace of names handed to `SD.remove` gains
only empty strings, and any file with a non-empty name survives. -/
theorem evictLoop_exhausted (maxCount millis : Nat) :
    ∀ fileCount pos (s : St), (fsNames s.fs).length ≤ pos →
      (∀ x ∈ (evictLoop maxCount millis fileCount pos s).removeTrace,
          x ∈ s.removeTrace ∨ x = "") ∧
      (∀ nm, nm ≠ "" →
          fsLookup (evictLoop maxCount millis fileCount pos s).fs nm =
            fsLookup s.fs nm) := by
  intro fileCount
  induction fileCount with
  | zero =>
    intro pos s _
    exact ⟨fun x hx => Or.inl hx, fun nm _ => rfl⟩
  | succ n ih =>
    intro pos s hpos
    rw [evictLoop]
    split
    · exact ⟨fun x hx => Or.inl hx, fun nm _ => rfl⟩
    · dsimp only
      rw [List.drop_eq_nil_of_le hpos]
      simp only [scanOldest]
      split
      · next fs2 heq =>
        have hlen : (fsNames fs2).length ≤ (fsNames s.fs).length :=
          fsRemove_length_le _ _ _ heq
        have hstep := ih (fsNames s.fs).length
          (logMessage 3 ("Deleted old backup: " ++ "")
            {{s with removeTrace := s.removeTrace ++ [""]} with fs := fs2})
          (by simp [logMessage_eq]; exact hlen)
        constructor
        · intro x hx
          rcases (hstep.1 x hx) with hmem | hrfl
          · simp [logMessage_eq] at hmem
            rcases hmem with hmem | hmem
            · exact Or.inl hmem
            · exact Or.inr hmem
          · exact Or.inr hrfl
        · intro nm hnm
          rw [hstep.2 nm hnm]
          simp only [logMessage_eq]
          exact fsLookup_remove_ne s.fs "" nm hnm fs2 heq
      · constructor
        · intro x hx
          simp [logMessage_eq] at hx
          rcases hx with hx | hx
          · exact Or.inl hx
          · exact Or.inr hx
        · intro nm _
          simp [logMessage_eq]

theorem probes_logs_spec :
    ∀ (ps : List Bool) (s : St),
      (runProbes ps s).logs = s.logs ++ specEdgeEvents s.sdAvailable ps := by
  intro ps
  induction ps with
  | nil => intro s; simp [runProbes, specEdgeEvents]
  | cons p ps ih =>
    intro s
    rw [runProbes, ih, checkSDCard_logs, checkSDCard_sdAvailable,
      specEdgeEvents, List.append_assoc]

/-! ### Claim theorems -/

/-- C4: `checkSDCard` logs exactly on availability edges — the emitted
log trace of any probe sequence is exactly the spec's per-edge event list
(one informational event per down-to-up edge, one error event per
up-to-down edge, nothing on a repeated state), and the probe outcome
sequence down,down,up,up,down from the initial down state produces
exactly 2 transition log events. -/
theorem availability_edge_logging :
    (∀ (ps : List Bool) (s : St),
        (runProbes ps s).logs = s.logs ++ specEdgeEvents s.sdAvailable ps) ∧
    (runProbes [false, false, true, true, false] initialState).logs =
      [(3, "SD card found."), (1, "SD card not found!")] ∧
    (runProbes [false, false, true, true, false] initialState).logs.length = 2 :=
  ⟨probes_logs_spec, by decide, by decide⟩

/-- C9: every name handed to the storage remove operation during a
retention pass either starts with the backup name or is the empty string
(the un-assigned default candidate), and the primary log file's entry is
untouched by the pass — `/example.txt` is never deleted. -/
theorem retention_remove_safety (maxCount millis : Nat) (s : St)
    (h0 : s.removeTrace = []) :
    (∀ x ∈ (cleanupOldBackups maxCount millis s).removeTrace,
        startsWithCpp x backupFileName = true ∨ x = "") ∧
    fsLookup (cleanupOldBackups maxCount millis s).fs dataFileName =
      fsLookup s.fs dataFileName := by
  have hmain := evictLoop_exhausted maxCount millis
    (countBackupFiles (fsNames s.fs)) (fsNames s.fs).length s (le_refl _)
  constructor
  · intro x hx
    rcases hmain.1 x hx with hmem | hrfl
    · rw [h0] at hmem
      cases hmem
    · exact Or.inr hrfl
  · exact hmain.2 dataFileName (by decide)

def safetySt : St := { initialState with
  sdAvailable := true
  fs := ⟨[(dataFileName, "keep"), ("/backup_1.txt", "a"), ("/backup_2.txt", "b")]⟩ }

theorem retention_remove_safety_witness :
    fsLookup (cleanupOldBackups 1 99 safetySt).fs dataFileName = some "keep" := by
  have h := (retention_remove_safety 1 99 safetySt rfl).2
  rw [h]
  decide

/-- C10: the eviction iteration initialises its oldest-candidate time to
the current `millis()` value, so no name starting with the backup name
and parsing to a time at or above `millis` is ever passed to remove; and
if the pass is entered (count above the maximum) while every backup
parses at or above `millis` (and no file bears the empty name), no
candidate is selected, remove is called once on the empty name, and the
pass aborts through the deletion-failure branch with the store
unchanged. -/
theorem eviction_candidate_bound (maxCount millis : Nat) (s : St)
    (h0 : s.removeTrace = []) :
    (∀ x ∈ (cleanupOldBackups maxCount millis s).removeTrace,
        startsWithCpp x backupFileName = true → fileTimeOf x < millis) ∧
    ((∀ n ∈ fsNames s.fs, startsWithCpp n backupFileName = true →
        millis ≤ fileTimeOf n) →
      countBackupFiles (fsNames s.fs) > maxCount →
      (fsNames s.fs).contains "" = false →
      (cleanupOldBackups maxCount millis s).removeTrace = [""] ∧
      (cleanupOldBackups maxCount millis s).fs = s.fs ∧
      (cleanupOldBackups maxCount millis s).logs =
        s.logs ++ [(1, "Failed to delete old backup: ")]) := by
  constructor
  · intro x hx
    have hmain := evictLoop_exhausted maxCount millis
      (countBackupFiles (fsNames s.fs)) (fsNames s.fs).length s (le_refl _)
    rcases hmain.1 x hx with hmem | hrfl
    · rw [h0] at hmem
      cases hmem
    · intro hsw
      rw [hrfl] at hsw
      exact absurd hsw (by decide)
  · intro _ hcount hempty
    unfold cleanupOldBackups
    dsimp only
    rw [gt_iff_lt] at hcount
    cases hk : countBackupFiles (fsNames s.fs) with
    | zero =>
      rw [hk] at hcount
      exact absurd hcount (by omega)
    | succ n =>
      rw [hk] at hcount
      rw [evictLoop, if_neg (by omega)]
      dsimp only
      rw [List.drop_length]
      simp only [scanOldest]
      have hrem : fsRemove s.fs "" = none := by
        unfold fsRemove
        rw [if_neg]
        intro hc
        rw [hempty] at hc
        cases hc
      rw [hrem]
      simp [logMessage_eq, h0, LOG_LEVEL]

def boundSt : St := { initialState with
  sdAvailable := true
  fs := ⟨[("/backup_100.txt", "a")]⟩ }

theorem eviction_candidate_bound_witness :
    (cleanupOldBackups 0 50 boundSt).removeTrace = [""] ∧
    (cleanupOldBackups 0 50 boundSt).fs = boundSt.fs := by
  have h := (eviction_candidate_bound 0 50 boundSt rfl).2
    (by decide) (by decide) (by decide)
  exact ⟨h.1, h.2.1⟩

def retentionScenarioSt : St := { initialState with
  sdAvailable := true
  fs := ⟨[(dataFileName, "log"), ("/backup_100.txt", "b1"), ("/backup_200.txt", "b2"),
          ("/backup_300.txt", "b3"), ("/backup_400.txt", "b4"),
          ("/backup_500.txt", "b5"), ("/backup_600.txt", "b6")]⟩ }

/-- C1 (code behaviour at the spec's end-to-end scenario): with six
backups timestamped 100..600 and maxCount 5, the pass counts six backups
and enters eviction, but — the directory cursor having been exhausted by
the counting loop and never rewound — the scan selects no candidate:
remove is called once on the empty default name, fails, the pass aborts
with the deletion-failure log, and the store is unchanged; in particular
the file timestamped 100 is NOT deleted, refuting the claimed retention
invariant and scenario. -/
theorem cleanup_scenario_no_deletion :
    countBackupFiles (fsNames retentionScenarioSt.fs) = 6 ∧
    (cleanupOldBackups 5 1000 retentionScenarioSt).fs = retentionScenarioSt.fs ∧
    (cleanupOldBackups 5 1000 retentionScenarioSt).removeTrace = [""] ∧
    (cleanupOldBackups 5 1000 retentionScenarioSt).logs =
      [(1, "Failed to delete old backup: ")] ∧
    fsLookup (cleanupOldBackups 5 1000 retentionScenarioSt).fs "/backup_100.txt" =
      some "b1" := by
  decide

/-- C8 (code behaviour at the failing inputs): the substring between the
name's delimiter and its extension does recover the rendered timestamp,
but `toInt` reduces an ISO-like stamp to its leading year, so two backups
created months apart in the same year parse to the same retention time
2026; and the 2-second compensation in `getTimestamp` wraps the hour at
midnight without carrying the day, so a backup created at 23:59:59 bears
a stamp lexically below one created at 22:00:00 the same day — the
embedded timestamp is neither losslessly comparable nor monotone in
creation order. -/
theorem timestamp_parse_not_order_faithful :
    getTimestamp ⟨26, 1, 1, 0, 0, 0⟩ = "2026-01-01 00:00:02" ∧
    getTimestamp ⟨26, 6, 1, 0, 0, 0⟩ = "2026-06-01 00:00:02" ∧
    backupPathFor ⟨26, 1, 1, 0, 0, 0⟩ = "/backup_2026-01-01 00:00:02.txt" ∧
    substringCpp (backupPathFor ⟨26, 1, 1, 0, 0, 0⟩) (backupFileName.length + 1)
        (asU32 (lastIndexOfCpp (backupPathFor ⟨26, 1, 1, 0, 0, 0⟩) '.')) =
      "2026-01-01 00:00:02" ∧
    fileTimeOf (backupPathFor ⟨26, 1, 1, 0, 0, 0⟩) = 2026 ∧
    fileTimeOf (backupPathFor ⟨26, 6, 1, 0, 0, 0⟩) = 2026 ∧
    getTimestamp ⟨26, 12, 31, 23, 59, 59⟩ = "2026-12-31 00:00:01" ∧
    getTimestamp ⟨26, 12, 31, 22, 0, 0⟩ = "2026-12-31 22:00:02" ∧
    (getTimestamp ⟨26, 12, 31, 23, 59, 59⟩).data.length =
      (getTimestamp ⟨26, 12, 31, 22, 0, 0⟩).data.length := by
  decide

theorem runFlushes_fail_preserves (envs : List Env) :
    ∀ s : St, (∀ e ∈ envs, e.sdBeginOk = false ∨ e.openAppendOk = false) →
      (runFlushes envs s).dataBuffer = s.dataBuffer ∧
        (runFlushes envs s).fs = s.fs := by
  induction envs with
  | nil => intro s _; exact ⟨rfl, rfl⟩
  | cons e es ih =>
    intro s h
    have hp := flush_fail_preserves e s (h e (List.mem_cons_self e es))
    have hr := ih ((writeDataFromBuffer e s).1)
      (fun x hx => h x (List.mem_cons_of_mem _ hx))
    rw [runFlushes]
    exact ⟨hr.1.trans hp.1, hr.2.trans hp.2⟩

/-- C3: flush is all-or-nothing on the buffer — a successful flush leaves
the buffer empty; a failed flush (storage unavailable or open failure)
leaves the buffer and the file store exactly as before the call; and any
run of consecutive failed attempts leaves the buffer equal to its content
before the first attempt, with no partial loss and no duplication. -/
theorem flush_all_or_nothing (env : Env) (s : St) (envs : List Env) :
    ((writeDataFromBuffer env s).2 = Except.ok () →
      ((writeDataFromBuffer env s).1).dataBuffer = "") ∧
    (∀ e : WriteError, (writeDataFromBuffer env s).2 = Except.error e →
      ((writeDataFromBuffer env s).1).dataBuffer = s.dataBuffer ∧
      ((writeDataFromBuffer env s).1).fs = s.fs) ∧
    ((∀ e ∈ envs, e.sdBeginOk = false ∨ e.openAppendOk = false) →
      (runFlushes envs s).dataBuffer = s.dataBuffer ∧
      (runFlushes envs s).fs = s.fs) := by
  refine ⟨?_, ?_, runFlushes_fail_preserves envs s⟩
  · rcases env with ⟨sdOk, openOk⟩
    cases sdOk <;> cases openOk <;>
      simp [writeDataFromBuffer, logMessage_eq]
  · rcases env with ⟨sdOk, openOk⟩
    cases sdOk <;> cases openOk <;>
      simp [writeDataFromBuffer, logMessage_eq]

def flushSt : St := { initialState with sdAvailable := true, dataBuffer := "payload" }

theorem flush_all_or_nothing_witness :
    ((writeDataFromBuffer envOk flushSt).1).dataBuffer = "" ∧
    (runFlushes [envNoSD, envNoOpen, envNoSD] flushSt).dataBuffer = "payload" := by
  constructor
  · exact (flush_all_or_nothing envOk flushSt []).1 (by rfl)
  · exact ((flush_all_or_nothing envOk flushSt [envNoSD, envNoOpen, envNoSD]).2.2
      (by decide)).1

/-- C6: flush re-probes the card itself instead of trusting the stored
availability flag — for every state (the stale flag may even read
available), a failed re-validation sets the flag unavailable, asserts the
fault indicator, leaves the buffer and the file store untouched, and
yields the storage-unavailable error without writing anything. -/
theorem flush_revalidation_failure (env : Env) (s : St)
    (h : env.sdBeginOk = false) :
    ((writeDataFromBuffer env s).1).sdAvailable = false ∧
    ((writeDataFromBuffer env s).1).led = true ∧
    ((writeDataFromBuffer env s).1).dataBuffer = s.dataBuffer ∧
    ((writeDataFromBuffer env s).1).fs = s.fs ∧
    (writeDataFromBuffer env s).2 = Except.error WriteError.storageUnavailable := by
  rcases env with ⟨sdOk, openOk⟩
  simp only at h
  subst h
  simp [writeDataFromBuffer, logMessage_eq]

def staleSt : St := { initialState with sdAvailable := true, dataBuffer := "rec" }

theorem flush_revalidation_failure_witness :
    staleSt.sdAvailable = true ∧
    ((writeDataFromBuffer envNoSD staleSt).1).sdAvailable = false ∧
    ((writeDataFromBuffer envNoSD staleSt).1).dataBuffer = "rec" :=
  ⟨rfl, (flush_revalidation_failure envNoSD staleSt rfl).1,
    (flush_revalidation_failure envNoSD staleSt rfl).2.2.1⟩

def upgradeSt : St := { initialState with dataBuffer := "x" }

/-- C7 counterexample: with the availability flag stale-down and a
succeeding re-validation probe, the persistent writer upgrades
`sdAvailable` from false to true — refuting the claim that the writer
never upgrades the flag. -/
theorem writer_upgrades_sd_flag :
    upgradeSt.sdAvailable = false ∧
    ((writeDataFromBuffer envOk upgradeSt).1).sdAvailable = true := by
  decide

/-- C7 (amended): the availability flag is written only by the monitor
and the writer, each setting it to its own probe's outcome — so the
writer downgrades on a failed probe but may equally upgrade on a
successful one — while the retention pass, the backup engine, the resume
lambda and the timer advance leave it unchanged, and the buffer tick and
the suspend controller touch it only through the writer they invoke. -/
theorem sd_flag_mutation_discipline :
    (∀ (env : Env) (s : St),
        ((writeDataFromBuffer env s).1).sdAvailable = env.sdBeginOk) ∧
    (∀ (ok : Bool) (s : St), (checkSDCard ok s).sdAvailable = ok) ∧
    (∀ (mc ms : Nat) (s : St),
        (cleanupOldBackups mc ms s).sdAvailable = s.sdAvailable) ∧
    (∀ (now : DateTime) (ok : Bool) (ms : Nat) (s : St),
        (createBackup now ok ms s).sdAvailable = s.sdAvailable) ∧
    (∀ s : St, (resumeCallback s).sdAvailable = s.sdAvailable) ∧
    (∀ s : St, (advanceOne s).sdAvailable = s.sdAvailable) ∧
    (∀ (now : DateTime) (env : Env) (s : St),
        (bufferData now env s).sdAvailable = s.sdAvailable ∨
        (bufferData now env s).sdAvailable = env.sdBeginOk) ∧
    (∀ (env : Env) (s : St),
        (stopWritingAndSaveAsync env s).sdAvailable = s.sdAvailable ∨
        (stopWritingAndSaveAsync env s).sdAvailable = env.sdBeginOk) := by
  refine ⟨flush_sdAvailable, checkSDCard_sdAvailable,
    fun mc ms s => (cleanup_fields mc ms s).1, createBackup_sdAvailable,
    fun s => rfl, ?_, ?_, ?_⟩
  · intro s
    unfold advanceOne
    split
    · rfl
    · split <;> rfl
  · intro now env s
    unfold bufferData
    split
    · exact Or.inl rfl
    · dsimp only
      split
      · exact Or.inr (flush_sdAvailable env _)
      · exact Or.inl rfl
  · intro env s
    unfold stopWritingAndSaveAsync
    dsimp only
    split
    · exact Or.inr (flush_sdAvailable env _)
    · exact Or.inl rfl

theorem suspend_writeEnabled (env : Env) (s : St) :
    (stopWritingAndSaveAsync env s).writeEnabled = false := by
  unfold stopWritingAndSaveAsync
  dsimp only
  split
  · rw [flush_writeEnabled]
    rfl
  · rfl

theorem advanceOne_of_armed_two (x : St) (h : x.resumeArmed = some 2) :
    advanceOne x = {x with resumeArmed := some 1} := by
  unfold advanceOne
  rw [h]
  rfl

theorem advanceOne_of_armed_one (x : St) (h : x.resumeArmed = some 1) :
    advanceOne x = {resumeCallback x with resumeArmed := none} := by
  unfold advanceOne
  rw [h]
  rfl

theorem advanceOne_of_armed_none (x : St) (h : x.resumeArmed = none) :
    advanceOne x = x := by
  unfold advanceOne
  rw [h]

/-- C2: from any WRITING state (write gate enabled), suspend first
disables the gate and asserts the fault indicator (the
`suspendEnterPhase` prefix of its body) and returns with the gate
disabled and the one-shot resume armed at the 2-unit grace period; the
gate stays disabled across any interleaving of probe, tick, flush and
backup callbacks and across the first time unit; when the grace period
expires the resume fires — gate re-enabled, indicator cleared, timer slot
emptied — and, the one-shot slot being re-armed rather than stacked, no
later timer expiry fires a second resume. -/
theorem suspend_resume_protocol (env : Env) (s s1 t1 t2 : St)
    (evs1 evs2 evs3 : List OtherEv)
    (hW : s.writeEnabled = true)
    (h1 : s1 = stopWritingAndSaveAsync env s)
    (h2 : t1 = advanceOne (runOther evs1 s1))
    (h3 : t2 = advanceOne (runOther evs2 t1)) :
    ((suspendEnterPhase s).writeEnabled = false ∧
      (suspendEnterPhase s).led = true) ∧
    (s1.writeEnabled = false ∧ s1.resumeArmed = some 2) ∧
    (runOther evs1 s1).writeEnabled = false ∧
    (t1.writeEnabled = false ∧ t1.resumeArmed = some 1) ∧
    (runOther evs2 t1).writeEnabled = false ∧
    (t2.writeEnabled = true ∧ t2.led = false ∧ t2.resumeArmed = none) ∧
    ((advanceOne (runOther evs3 t2)).writeEnabled = true ∧
      (advanceOne (runOther evs3 t2)).resumeArmed = none) := by
  subst h3
  subst h2
  subst h1
  have hs1W : (stopWritingAndSaveAsync env s).writeEnabled = false :=
    suspend_writeEnabled env s
  have hs1A : (stopWritingAndSaveAsync env s).resumeArmed = some 2 := rfl
  have hr1W : (runOther evs1 (stopWritingAndSaveAsync env s)).writeEnabled = false := by
    rw [runOther_writeEnabled, hs1W]
  have hr1A : (runOther evs1 (stopWritingAndSaveAsync env s)).resumeArmed = some 2 := by
    rw [runOther_resumeArmed, hs1A]
  have ht1 := advanceOne_of_armed_two _ hr1A
  have ht1W : (advanceOne (runOther evs1 (stopWritingAndSaveAsync env s))).writeEnabled
      = false := by
    rw [ht1]
    exact hr1W
  have ht1A : (advanceOne (runOther evs1 (stopWritingAndSaveAsync env s))).resumeArmed
      = some 1 := by
    rw [ht1]
  have hr2W : (runOther evs2 (advanceOne (runOther evs1
      (stopWritingAndSaveAsync env s)))).writeEnabled = false := by
    rw [runOther_writeEnabled]
    exact ht1W
  have hr2A : (runOther evs2 (advanceOne (runOther evs1
      (stopWritingAndSaveAsync env s)))).resumeArmed = some 1 := by
    rw [runOther_resumeArmed]
    exact ht1A
  have ht2 := advanceOne_of_armed_one _ hr2A
  have ht2W : (advanceOne (runOther evs2 (advanceOne (runOther evs1
      (stopWritingAndSaveAsync env s))))).writeEnabled = true := by
    rw [ht2]
    rfl
  have ht2L : (advanceOne (runOther evs2 (advanceOne (runOther evs1
      (stopWritingAndSaveAsync env s))))).led = false := by
    rw [ht2]
    rfl
  have ht2A : (advanceOne (runOther evs2 (advanceOne (runOther evs1
      (stopWritingAndSaveAsync env s))))).resumeArmed = none := by
    rw [ht2]
  have hr3A : (runOther evs3 (advanceOne (runOther evs2 (advanceOne (runOther evs1
      (stopWritingAndSaveAsync env s)))))).resumeArmed = none := by
    rw [runOther_resumeArmed]
    exact ht2A
  have ht3 := advanceOne_of_armed_none _ hr3A
  refine ⟨⟨rfl, rfl⟩, ⟨hs1W, hs1A⟩, hr1W, ⟨ht1W, ht1A⟩, hr2W,
    ⟨ht2W, ht2L, ht2A⟩, ?_, ?_⟩
  · rw [ht3, runOther_writeEnabled]
    exact ht2W
  · rw [ht3]
    exact hr3A

theorem suspend_resume_protocol_witness :
    (stopWritingAndSaveAsync envOk initialState).writeEnabled = false ∧
    (advanceOne (advanceOne (stopWritingAndSaveAsync envOk initialState))).writeEnabled
      = true := by
  have h := suspend_resume_protocol envOk initialState
    (stopWritingAndSaveAsync envOk initialState)
    (advanceOne (runOther [] (stopWritingAndSaveAsync envOk initialState)))
    (advanceOne (runOther [] (advanceOne (runOther []
      (stopWritingAndSaveAsync envOk initialState)))))
    [] [] [] rfl rfl rfl rfl
  exact ⟨h.2.1.1, h.2.2.2.2.2.1.1⟩

def tickNow : DateTime := ⟨26, 1, 2, 3, 4, 5⟩

def tickSt : St := { initialState with sdAvailable := true }

/-- Record lines the ten ticks produce, in creation order. -/
def expectedTickLines : List String :=
  (List.range 10).map fun k => getTimestamp tickNow ++ ", " ++ toString (k + 1) ++ "\n"

/-- C5 counterexample: starting from the empty buffer with the gate
enabled and storage available, 10 buffer ticks with the size threshold at
10 trigger ten automatic flushes — one per tick, since every timestamped
record line is at least 23 length units — not exactly one as claimed. -/
theorem ten_ticks_ten_flushes :
    (runTicks tickNow envOk 10 tickSt).flushCalls = 10 ∧
    ¬ ((runTicks tickNow envOk 10 tickSt).flushCalls = 1) := by
  decide

set_option maxRecDepth 8192 in
/-- C5 (amended): every timestamped record line is at least 23 length
units, so each of the 10 ticks reaches the 10-unit threshold and flushes
synchronously before returning — ten automatic flushes in all — and the
primary log afterwards contains all ten records in creation order with
the buffer empty; in general a tick flushes synchronously before
returning exactly when the appended buffer reaches the threshold. -/
theorem buffer_tick_flush_behavior :
    ((runTicks tickNow envOk 10 tickSt).flushCalls = 10 ∧
     fsLookup (runTicks tickNow envOk 10 tickSt).fs dataFileName =
       some (String.join expectedTickLines) ∧
     (runTicks tickNow envOk 10 tickSt).dataBuffer = "") ∧
    (∀ (now : DateTime) (env : Env) (s : St),
       s.writeEnabled = true → s.sdAvailable = true →
       (bufferSizeLimit ≤ (appendPhase now s).dataBuffer.length →
         bufferData now env s = (writeDataFromBuffer env (appendPhase now s)).1) ∧
       ((appendPhase now s).dataBuffer.length < bufferSizeLimit →
         bufferData now env s = appendPhase now s)) := by
  constructor
  · refine ⟨by decide, by decide, by decide⟩
  · intro now env s hW hS
    constructor
    · intro h
      unfold bufferData
      rw [if_neg (by simp [hW, hS])]
      dsimp only
      rw [if_pos h]
    · intro h
      unfold bufferData
      rw [if_neg (by simp [hW, hS])]
      dsimp only
      rw [if_neg (by omega)]

theorem buffer_tick_flush_behavior_witness :
    bufferData tickNow envOk tickSt =
      (writeDataFromBuffer envOk (appendPhase tickNow tickSt)).1 :=
  (buffer_tick_flush_behavior.2 tickNow envOk tickSt rfl rfl).1 (by decide)

end CDRTC
